import Mathlib

/-!
# Verification of the aloha_console process-supervision engine

Shallow embedding of `src/console.py` (the `aloha_console` repository):

* `ScriptConfig.get_command` — command-template resolution via Python's
  `string.Template.safe_substitute` followed by `str.split()`;
* `ScriptRunner.launch_script`, `ScriptRunner.stop_script`, and the
  background output-monitoring loop `ScriptRunner._monitor_output`,
  modelled as explicit state-passing functions over a `SysState` record,
  with the environment's choices (process-creation success, signal-delivery
  success, the sequence of stream-read outcomes) passed as parameters;
* the episode counter of `AlohaConsole` (`handle_episode_input`,
  `_launch_data_collection`).

Events written to the `RichLog` sink or posted as messages are recorded in
an ordered `events` list; the monitor thread is modelled as a small-step
machine (`MonitorStatus`, advanced by `monitorStep`) so that interleavings
of the control path (`launch_script` / `stop_script`) with the background
reader are explicit.
-/

namespace AlohaConsole

/-! ## Python `string.Template` identifier syntax

`Template.idpattern` is `(?a:[_a-z][_a-z0-9]*)` compiled with `re.IGNORECASE`,
i.e. ASCII letters or underscore, then ASCII alphanumerics or underscore. -/

def isIdStart (c : Char) : Bool := c.isAlpha || c = '_'

def isIdCont (c : Char) : Bool := c.isAlphanum || c = '_'

/-- Python keyword-argument lookup: first (and only, for a `dict`) binding
of the key in the association list. -/
def lookupParam (m : List (String × String)) (k : String) : Option String :=
  match m with
  | [] => none
  | (k', v) :: rest => if k' = k then some v else lookupParam rest k

/-- Result of one substitution pass: either the output characters, or the
`KeyError` that `Template.substitute` (the strict variant) raises on a
placeholder with no matching parameter. -/
inductive SubstResult where
  | ok (out : List Char)
  | keyError (name : String)
deriving DecidableEq

def consResult (c : Char) : SubstResult → SubstResult
  | SubstResult.ok l => SubstResult.ok (c :: l)
  | SubstResult.keyError n => SubstResult.keyError n

def appendResult (p : List Char) : SubstResult → SubstResult
  | SubstResult.ok l => SubstResult.ok (p ++ l)
  | SubstResult.keyError n => SubstResult.keyError n

/-- The character scanner of `string.Template.substitute` /
`safe_substitute`, fuelled (any fuel at least the input length is exact).
`$$` is an escaped dollar; `$name` and `$\x7bname\x7d` are placeholders; a
`$` matching neither is "invalid" and is left in place. With `strict = false`
(`safe_substitute`) a placeholder without a matching parameter is emitted
verbatim; with `strict = true` (`substitute`) it raises `KeyError`. -/
def substAux (strict : Bool) (m : List (String × String)) :
    Nat → List Char → SubstResult
  | 0, l => SubstResult.ok l
  | _ + 1, [] => SubstResult.ok []
  | fuel + 1, c :: rest =>
    if c = '$' then
      match rest with
      | [] => SubstResult.ok ['$']
      | d :: ds =>
        if d = '$' then
          consResult '$' (substAux strict m fuel ds)
        else if d = '\x7b' then
          match ds with
          | e :: es =>
            if isIdStart e then
              match (e :: es).dropWhile isIdCont with
              | close :: rest2 =>
                if close = '\x7d' then
                  match lookupParam m (String.mk ((e :: es).takeWhile isIdCont)) with
                  | some v => appendResult v.data (substAux strict m fuel rest2)
                  | none =>
                    if strict then
                      SubstResult.keyError (String.mk ((e :: es).takeWhile isIdCont))
                    else appendResult
                      ('$' :: '\x7b' :: ((e :: es).takeWhile isIdCont ++ ['\x7d']))
                      (substAux strict m fuel rest2)
                else consResult '$' (substAux strict m fuel rest)
              | [] => consResult '$' (substAux strict m fuel rest)
            else consResult '$' (substAux strict m fuel rest)
          | [] => consResult '$' (substAux strict m fuel rest)
        else if isIdStart d then
          match lookupParam m (String.mk ((d :: ds).takeWhile isIdCont)) with
          | some v =>
            appendResult v.data (substAux strict m fuel ((d :: ds).dropWhile isIdCont))
          | none =>
            if strict then
              SubstResult.keyError (String.mk ((d :: ds).takeWhile isIdCont))
            else appendResult ('$' :: (d :: ds).takeWhile isIdCont)
              (substAux strict m fuel ((d :: ds).dropWhile isIdCont))
        else
          consResult '$' (substAux strict m fuel rest)
    else
      consResult c (substAux strict m fuel rest)

/-- `Template(t).safe_substitute(**m)`. -/
def safe_substitute (t : String) (m : List (String × String)) : SubstResult :=
  substAux false m t.data.length t.data

/-! ## Python `str.split()` (no separator: split on whitespace runs) -/

def isPySpace (c : Char) : Bool :=
  c = ' ' || c = '\t' || c = '\n' || c = '\r' || c = '\x0b' || c = '\x0c'

def pySplitAux : List Char → List Char → List String
  | [], acc => if acc.isEmpty then [] else [String.mk acc.reverse]
  | c :: cs, acc =>
    if isPySpace c then
      if acc.isEmpty then pySplitAux cs []
      else String.mk acc.reverse :: pySplitAux cs []
    else pySplitAux cs (c :: acc)

def pySplit (s : String) : List String := pySplitAux s.data []

/-- Python `str.strip()` (used on each delivered output line). -/
def pyStrip (s : String) : String :=
  String.mk (((s.data.dropWhile isPySpace).reverse.dropWhile isPySpace).reverse)

/-! ## `ScriptConfig` -/

/-- `ScriptConfig.__init__`: a name and a command template. -/
structure ScriptConfig where
  name : String
  command_template : String
deriving DecidableEq

/-- `ScriptConfig.get_command`: resolve the template with `safe_substitute`
and split the result into argv tokens; the `except KeyError` handler turns a
raised `KeyError` into a `ValueError` ("Missing required template
variable"). -/
def ScriptConfig.get_command (cfg : ScriptConfig)
    (kwargs : List (String × String)) : Except String (List String) :=
  match safe_substitute cfg.command_template kwargs with
  | SubstResult.ok out => Except.ok (pySplit (String.mk out))
  | SubstResult.keyError k =>
    Except.error ("Missing required template variable: " ++ k)

/-! ## `ScriptRunner` as an explicit state machine

The widget's mutable fields (`self.process`, `self.is_running`), the sink
(`RichLog` writes and posted messages), and the monitor thread's control
point are gathered in `SysState`.  Environment-dependent outcomes — whether
`subprocess.Popen` succeeds, whether `os.killpg` succeeds, and what each
`readline()` call returns — are supplied as parameters, so the theorems
quantify over every environment behaviour. -/

/-- One observable event, in delivery order: `RichLog` writes
(`launchedMsg`, `launchError`, `stoppedMsg`, `stopError`, `outputLine`,
`readError`, `processFinished`) and the `RunningStatusChanged` message
posted by `watch_is_running` (`runningChanged`). -/
inductive Event where
  | runningChanged (value : Bool)
  | launchedMsg
  | launchError (msg : String)
  | stoppedMsg
  | stopError (msg : String)
  | outputLine (text : String)
  | readError (msg : String)
  | processFinished
deriving DecidableEq

/-- Outcome of one `self.process.stdout.readline()` call: a non-empty
line, end of stream (with whether `poll()` then reports the process
exited), or a raised exception. -/
inductive ReadResult where
  | line (s : String)
  | eof (exited : Bool)
  | err (msg : String)
deriving DecidableEq

/-- Control point of the `_monitor_output` thread: not started, at the
`while` condition (about to read), holding a read result (about to process
it), or past the loop. -/
inductive MonitorStatus where
  | noThread
  | atLoop
  | processing (r : ReadResult)
  | done
deriving DecidableEq

/-- The state of one `ScriptRunner`. `pendingReads` is the scripted
sequence of outcomes future `readline()` calls will produce. -/
structure SysState where
  config : ScriptConfig
  process : Option (List String)
  is_running : Bool
  monitor : MonitorStatus
  pendingReads : List ReadResult
  events : List Event
deriving DecidableEq

/-- Assignment to the reactive `is_running`: `watch_is_running` posts a
`RunningStatusChanged` message exactly when the value changes. -/
def setRunning (v : Bool) (s : SysState) : SysState :=
  if s.is_running = v then s
  else { s with is_running := v, events := s.events ++ [Event.runningChanged v] }

/-- `ScriptRunner.launch_script`.  `popen` is the environment's verdict on
`subprocess.Popen`; `reads` scripts the launched process's output stream.
Guard: immediate return if `self.process is not None`.  On any exception
(resolution failure or `Popen` failure) the handler writes a "Failed to
launch" line; no handle is stored, `is_running` is untouched and no
monitor thread is started. -/
def launch_script (popen : Except String Unit) (reads : List ReadResult)
    (kwargs : List (String × String)) (s : SysState) : SysState :=
  if s.process.isSome then s
  else
    match s.config.get_command kwargs with
    | Except.error e => { s with events := s.events ++ [Event.launchError e] }
    | Except.ok command =>
      match popen with
      | Except.error e => { s with events := s.events ++ [Event.launchError e] }
      | Except.ok _ =>
        let s1 := setRunning true { s with process := some command, pendingReads := reads }
        { s1 with monitor := MonitorStatus.atLoop,
                  events := s1.events ++ [Event.launchedMsg] }

/-- `ScriptRunner.stop_script`.  `killpgError` is the environment's verdict
on `os.killpg(os.getpgid(...), SIGTERM)`: `none` = delivered, `some e` =
raised.  The assignments `self.process = None` and `self.is_running =
False` sit after the `killpg` call inside the `try`, so when the call
raises, only the error handler runs. -/
def stop_script (killpgError : Option String) (s : SysState) : SysState :=
  match s.process with
  | none => s
  | some _ =>
    match killpgError with
    | some e => { s with events := s.events ++ [Event.stopError e] }
    | none =>
      let s1 := setRunning false { s with process := none }
      { s1 with events := s1.events ++ [Event.stoppedMsg] }

/-- One micro-step of the `_monitor_output` thread.  At `atLoop` the
`while self.is_running and self.process` condition is checked and, when it
holds, one `readline()` outcome is consumed (an empty `pendingReads`
models a read that is still blocked).  At `processing r` the loop body
runs on the result: a non-empty line is stripped and delivered; an empty
read with a live handle breaks the loop, transitioning to Idle and
emitting the completion notice only when `poll()` reports an exit; an
empty read with `self.process` already `None` falls through to the
delivery call (an empty `outputLine`); an exception is reported and the
loop continues. -/
def monitorStep (s : SysState) : SysState :=
  match s.monitor with
  | MonitorStatus.noThread => s
  | MonitorStatus.done => s
  | MonitorStatus.atLoop =>
    if s.is_running && s.process.isSome then
      match s.pendingReads with
      | [] => s
      | r :: rest =>
        { s with monitor := MonitorStatus.processing r, pendingReads := rest }
    else { s with monitor := MonitorStatus.done }
  | MonitorStatus.processing r =>
    match r with
    | ReadResult.line t =>
      { s with events := s.events ++ [Event.outputLine (pyStrip t)],
               monitor := MonitorStatus.atLoop }
    | ReadResult.err m =>
      { s with events := s.events ++ [Event.readError m],
               monitor := MonitorStatus.atLoop }
    | ReadResult.eof exited =>
      if s.process.isSome then
        if exited then
          let s1 := setRunning false s
          { s1 with process := none,
                    events := s1.events ++ [Event.processFinished],
                    monitor := MonitorStatus.done }
        else { s with monitor := MonitorStatus.done }
      else
        { s with events := s.events ++ [Event.outputLine (pyStrip "")],
                 monitor := MonitorStatus.atLoop }

/-- Number of `outputLine` events in a sink history. -/
def countOutput (evs : List Event) : Nat :=
  (evs.filter fun e =>
    match e with
    | Event.outputLine _ => true
    | _ => false).length

/-- Number of `processFinished` (completion) events in a sink history. -/
def countFinished (evs : List Event) : Nat :=
  (evs.filter fun e =>
    match e with
    | Event.processFinished => true
    | _ => false).length

/-! ## The `AlohaConsole` app: episode counter and data-collection launch -/

/-- The app-level state the claims mention: the reactive `episode` counter
and the three `ScriptRunner` widgets. -/
structure ConsoleState where
  episode : Int
  core_runner : SysState
  data_runner : SysState
  sleep_runner : SysState
deriving DecidableEq

/-- `AlohaConsole.handle_episode_input`: when the input validates, set
`self.episode = int(event.value)`; otherwise the state is unchanged (the
handler only resets the input widget's text). -/
def handle_episode_input (is_valid : Bool) (n : Int) (cs : ConsoleState) :
    ConsoleState :=
  if is_valid then { cs with episode := n } else cs

/-- `AlohaConsole._launch_data_collection`: launch the data runner with
`episode=str(self.episode)` read at call time. -/
def launch_data_collection (popen : Except String Unit)
    (reads : List ReadResult) (cs : ConsoleState) : ConsoleState :=
  { cs with data_runner :=
      (launch_script popen reads [("episode", toString cs.episode)]
        cs.data_runner) }

/-! ## Helper lemmas -/

/-- With `strict = false` (the `safe_substitute` path) the scanner never
produces a `KeyError`, whatever the fuel, the parameters and the input. -/
theorem substAux_false_ok (m : List (String × String)) :
    ∀ fuel l, ∃ out, substAux false m fuel l = SubstResult.ok out := by
  intro fuel
  induction fuel with
  | zero => exact fun l => ⟨l, rfl⟩
  | succ f ih =>
    intro l
    cases l with
    | nil => exact ⟨[], rfl⟩
    | cons c rest =>
      have h1 : ∀ (c' : Char) (l' : List Char),
          ∃ o, consResult c' (substAux false m f l') = SubstResult.ok o := by
        intro c' l'
        obtain ⟨o, h⟩ := ih l'
        exact ⟨c' :: o, by rw [h]; rfl⟩
      have h2 : ∀ (p : List Char) (l' : List Char),
          ∃ o, appendResult p (substAux false m f l') = SubstResult.ok o := by
        intro p l'
        obtain ⟨o, h⟩ := ih l'
        exact ⟨p ++ o, by rw [h]; rfl⟩
      simp only [substAux]
      repeat' split
      all_goals first
        | exact ⟨_, rfl⟩
        | exact h1 _ _
        | exact h2 _ _
        | simp_all

/-- Command resolution always succeeds: the safe scanner never raises, so
`get_command` always takes its `Except.ok` branch. -/
theorem get_command_ok (cfg : ScriptConfig) (kwargs : List (String × String)) :
    ∃ argv, ScriptConfig.get_command cfg kwargs = Except.ok argv := by
  obtain ⟨out, h⟩ := substAux_false_ok kwargs
    cfg.command_template.data.length cfg.command_template.data
  exact ⟨pySplit (String.mk out), by
    unfold ScriptConfig.get_command safe_substitute
    rw [h]⟩

/-- A runner that has never been launched: Idle, no handle, no monitor
thread, empty sink history. -/
def idleRunner : SysState :=
  { config := ⟨"Aloha Core", "./launch_core.sh"⟩,
    process := none, is_running := false,
    monitor := MonitorStatus.noThread, pendingReads := [], events := [] }

/-- A runner mid-run: Running with a live handle, its monitor at the loop
head. -/
def runningRunner : SysState :=
  { config := ⟨"Aloha Core", "./launch_core.sh"⟩,
    process := some ["./launch_core.sh"], is_running := true,
    monitor := MonitorStatus.atLoop, pendingReads := [],
    events := [Event.runningChanged true, Event.launchedMsg] }

/-! ## Claim theorems -/

/-- C4: template resolution substitutes matching named placeholders, leaves
unmatched placeholders verbatim without failing, and splits the resolved
string on whitespace into argv tokens: `"echo hello-${episode}"` with
`{episode: "3"}` resolves to `["echo", "hello-3"]`, the same template with
no parameters resolves to `["echo", "hello-${episode}"]`, and resolution
always returns a token list. -/
theorem C4_template_resolution :
    (ScriptConfig.get_command ⟨"Data Collection", "echo hello-${episode}"⟩
        [("episode", "3")] = Except.ok ["echo", "hello-3"])
  ∧ (ScriptConfig.get_command ⟨"Data Collection", "echo hello-${episode}"⟩
        [] = Except.ok ["echo", "hello-${episode}"])
  ∧ ∀ (cfg : ScriptConfig) (kwargs : List (String × String)),
      ∃ argv, ScriptConfig.get_command cfg kwargs = Except.ok argv := by
  exact ⟨by rfl, by rfl, fun cfg kwargs => get_command_ok cfg kwargs⟩

/-- C10: command resolution is total — because the code calls the safe
substitution, which leaves unknown placeholders literal instead of raising
`KeyError`, the `except KeyError` handler in `get_command` is unreachable
and `get_command` always returns a token list, never the "Missing required
template variable" error. -/
theorem C10_get_command_never_fails :
    ∀ (cfg : ScriptConfig) (kwargs : List (String × String)),
      (∃ argv, ScriptConfig.get_command cfg kwargs = Except.ok argv)
    ∧ ∀ e, ScriptConfig.get_command cfg kwargs ≠ Except.error e := by
  intro cfg kwargs
  obtain ⟨argv, h⟩ := get_command_ok cfg kwargs
  exact ⟨⟨argv, h⟩, fun e hcontra => by rw [h] at hcontra; exact Except.noConfusion hcontra⟩

/-- C5: launching while a ProcessHandle is already active is a complete
no-op: the guard `if self.process is not None: return` fires before any
side effect, so no second process, no second relay and no state change of
any kind (the entire `SysState` is unchanged). -/
theorem C5_launch_while_active_noop (popen : Except String Unit)
    (reads : List ReadResult) (kwargs : List (String × String))
    (s : SysState) (h : s.process.isSome = true) :
    launch_script popen reads kwargs s = s := by
  unfold launch_script
  rw [if_pos h]

/-- Witness for C5: at a concrete Running state, a second launch changes
nothing. -/
theorem C5_witness :
    runningRunner.process.isSome = true
  ∧ launch_script (Except.ok ()) [ReadResult.eof true] [] runningRunner
      = runningRunner :=
  ⟨by decide,
   C5_launch_while_active_noop (Except.ok ()) [ReadResult.eof true] []
     runningRunner (by decide)⟩

/-- C8: for a supervisor that was never launched (Idle, no handle),
`stop()` is a no-op: it returns without error, emits no events, and leaves
RunState Idle. -/
theorem C8_stop_never_launched (k : Option String) (s : SysState)
    (h : s.process = none) (h2 : s.is_running = false) :
    stop_script k s = s
  ∧ (stop_script k s).events = s.events
  ∧ (stop_script k s).is_running = false := by
  have heq : stop_script k s = s := by
    unfold stop_script
    rw [h]
  exact ⟨heq, by rw [heq], by rw [heq, h2]⟩

/-- Witness for C8 on a concrete never-launched runner. -/
theorem C8_witness :
    (idleRunner.process = none ∧ idleRunner.is_running = false)
  ∧ (stop_script none idleRunner = idleRunner
     ∧ (stop_script none idleRunner).events = idleRunner.events
     ∧ (stop_script none idleRunner).is_running = false) :=
  ⟨⟨by decide, by decide⟩,
   C8_stop_never_launched none idleRunner (by decide) (by decide)⟩

/-- C6: from Idle, a launch whose process creation fails leaves the state
Idle — no handle stored, `is_running` untouched, no monitor/relay started,
no reads consumed — and appends exactly one diagnostic launch-error event
(the handler catches the exception; nothing propagates to the caller,
`launch_script` being a total function). -/
theorem C6_launch_failure_stays_idle (e : String) (reads : List ReadResult)
    (kwargs : List (String × String)) (s : SysState) (h : s.process = none) :
    (launch_script (Except.error e) reads kwargs s).process = none
  ∧ (launch_script (Except.error e) reads kwargs s).is_running = s.is_running
  ∧ (launch_script (Except.error e) reads kwargs s).monitor = s.monitor
  ∧ (launch_script (Except.error e) reads kwargs s).pendingReads = s.pendingReads
  ∧ (launch_script (Except.error e) reads kwargs s).events
      = s.events ++ [Event.launchError e] := by
  obtain ⟨argv, hcmd⟩ := get_command_ok s.config kwargs
  refine ⟨?_, ?_, ?_, ?_, ?_⟩ <;> simp [launch_script, h, hcmd]

/-- Witness for C6: failing to spawn from a concrete Idle runner. -/
theorem C6_witness :
    idleRunner.process = none
  ∧ ((launch_script (Except.error "No such file or directory") [] []
        idleRunner).process = none
     ∧ (launch_script (Except.error "No such file or directory") [] []
          idleRunner).is_running = idleRunner.is_running
     ∧ (launch_script (Except.error "No such file or directory") [] []
          idleRunner).monitor = idleRunner.monitor
     ∧ (launch_script (Except.error "No such file or directory") [] []
          idleRunner).pendingReads = idleRunner.pendingReads
     ∧ (launch_script (Except.error "No such file or directory") [] []
          idleRunner).events
         = idleRunner.events ++ [Event.launchError "No such file or directory"]) :=
  ⟨by decide,
   C6_launch_failure_stays_idle "No such file or directory" [] [] idleRunner
     (by decide)⟩

/-- C9: updating the episode counter is a pure state update — it leaves
every runner (handle, RunState, monitor, sink history) unchanged — and the
next episode-dependent launch passes `episode = str(n)` for the episode
value `n` current at that launch. -/
theorem C9_set_episode_pure :
    ∀ (cs : ConsoleState) (n : Int) (popen : Except String Unit)
      (reads : List ReadResult),
    (handle_episode_input true n cs).core_runner = cs.core_runner
  ∧ (handle_episode_input true n cs).data_runner = cs.data_runner
  ∧ (handle_episode_input true n cs).sleep_runner = cs.sleep_runner
  ∧ (handle_episode_input true n cs).episode = n
  ∧ launch_data_collection popen reads (handle_episode_input true n cs)
      = { handle_episode_input true n cs with data_runner :=
            (launch_script popen reads [("episode", toString n)] cs.data_runner) } := by
  intro cs n popen reads
  refine ⟨?_, ?_, ?_, ?_, ?_⟩ <;> simp [handle_episode_input, launch_data_collection]

/-- C1 counterexample: at a concrete Running state, when the termination
call raises (process already gone), `stop_script` does NOT transition to
Idle — the handle is retained and `is_running` stays `true`, because the
assignments clearing them sit after the `killpg` call inside the `try`
block and are skipped when it raises. This refutes the claim that stop
never leaves the supervisor stuck in Running. -/
theorem C1_counterexample :
    ¬ ((stop_script (some "No such process") runningRunner).process = none
       ∧ (stop_script (some "No such process") runningRunner).is_running = false) := by
  decide

/-- C1 (amended): if the termination call fails, the error is reported as
a diagnostic event but the supervisor stays in its current state — the
handle is retained and RunState remains Running, so stop must be retried;
only a successful termination call discards the handle and transitions to
Idle. -/
theorem C1_stop_failure_keeps_running (s : SysState) (e : String)
    (h : s.process.isSome = true) :
    (stop_script (some e) s).process = s.process
  ∧ (stop_script (some e) s).is_running = s.is_running
  ∧ (stop_script (some e) s).events = s.events ++ [Event.stopError e]
  ∧ (stop_script none s).process = none
  ∧ (stop_script none s).is_running = false := by
  obtain ⟨p, hp⟩ := Option.isSome_iff_exists.mp h
  refine ⟨?_, ?_, ?_, ?_, ?_⟩ <;>
    simp only [stop_script, hp, setRunning] <;> split_ifs <;> simp_all

/-- Witness for the amended C1 at a concrete Running state. -/
theorem C1_witness :
    runningRunner.process.isSome = true
  ∧ ((stop_script (some "No such process") runningRunner).process
       = runningRunner.process
     ∧ (stop_script (some "No such process") runningRunner).is_running
         = runningRunner.is_running
     ∧ (stop_script (some "No such process") runningRunner).events
         = runningRunner.events ++ [Event.stopError "No such process"]
     ∧ (stop_script none runningRunner).process = none
     ∧ (stop_script none runningRunner).is_running = false) :=
  ⟨by decide,
   C1_stop_failure_keeps_running runningRunner "No such process" (by decide)⟩

/-- A runner whose monitor has just caught a read exception while Running,
with one more line available on the stream. -/
def readErrorRunner : SysState :=
  { config := ⟨"Aloha Core", "./launch_core.sh"⟩,
    process := some ["./launch_core.sh"], is_running := true,
    monitor := MonitorStatus.processing (ReadResult.err "Input or output error"),
    pendingReads := [ReadResult.line "x\n"],
    events := [] }

/-- C3 counterexample: after a read error the relay emits the diagnostic
line but does NOT terminate its capture loop — the `except` branch has no
`break`, so the loop returns to its head and the very next step consumes a
further read. This refutes "terminates its capture loop (no further
reads are attempted after the error)". -/
theorem C3_counterexample :
    (monitorStep readErrorRunner).events
      = [Event.readError "Input or output error"]
  ∧ (monitorStep readErrorRunner).monitor = MonitorStatus.atLoop
  ∧ (monitorStep (monitorStep readErrorRunner)).pendingReads = []
  ∧ (monitorStep (monitorStep readErrorRunner)).monitor
      = MonitorStatus.processing (ReadResult.line "x\n") := by
  refine ⟨?_, ?_, ?_, ?_⟩ <;> decide

/-- C3 (amended): on a read error the relay emits exactly one diagnostic
line describing the error and then CONTINUES its loop (back to the `while`
head, runner state and pending stream untouched); it terminates only on
end of stream or when the supervisor leaves Running. -/
theorem C3_read_error_continues (s : SysState) (msg : String)
    (h : s.monitor = MonitorStatus.processing (ReadResult.err msg)) :
    (monitorStep s).events = s.events ++ [Event.readError msg]
  ∧ (monitorStep s).monitor = MonitorStatus.atLoop
  ∧ (monitorStep s).process = s.process
  ∧ (monitorStep s).is_running = s.is_running
  ∧ (monitorStep s).pendingReads = s.pendingReads := by
  refine ⟨?_, ?_, ?_, ?_, ?_⟩ <;> simp [monitorStep, h]

/-- Witness for the amended C3 at a concrete erroring state. -/
theorem C3_witness :
    readErrorRunner.monitor
      = MonitorStatus.processing (ReadResult.err "Input or output error")
  ∧ ((monitorStep readErrorRunner).events
       = readErrorRunner.events ++ [Event.readError "Input or output error"]
     ∧ (monitorStep readErrorRunner).monitor = MonitorStatus.atLoop
     ∧ (monitorStep readErrorRunner).process = readErrorRunner.process
     ∧ (monitorStep readErrorRunner).is_running = readErrorRunner.is_running
     ∧ (monitorStep readErrorRunner).pendingReads = readErrorRunner.pendingReads) :=
  ⟨by decide,
   C3_read_error_continues readErrorRunner "Input or output error" (by decide)⟩

/-- Once the monitor loop has exited, a monitor step changes nothing. -/
theorem monitorStep_done (s : SysState) (h : s.monitor = MonitorStatus.done) :
    monitorStep s = s := by
  simp [monitorStep, h]

/-- C7: when the relay reads end of stream and `poll()` reports the
process exited on its own, the supervisor transitions Running→Idle,
discards the handle, and the completion notice is delivered exactly once:
this step appends one `runningChanged false` and one `processFinished`,
and every later monitor step leaves the completion count unchanged (the
loop has exited). -/
theorem C7_natural_exit (s : SysState)
    (h1 : s.is_running = true) (h2 : s.process.isSome = true)
    (h3 : s.monitor = MonitorStatus.processing (ReadResult.eof true)) :
    (monitorStep s).is_running = false
  ∧ (monitorStep s).process = none
  ∧ (monitorStep s).monitor = MonitorStatus.done
  ∧ (monitorStep s).events
      = s.events ++ [Event.runningChanged false, Event.processFinished]
  ∧ countFinished (monitorStep s).events = countFinished s.events + 1
  ∧ ∀ n, countFinished ((monitorStep^[n]) (monitorStep s)).events
        = countFinished (monitorStep s).events := by
  obtain ⟨p, hp⟩ := Option.isSome_iff_exists.mp h2
  have hdone : (monitorStep s).monitor = MonitorStatus.done := by
    simp [monitorStep, h3, hp, setRunning, h1]
  refine ⟨?_, ?_, hdone, ?_, ?_, ?_⟩
  · simp [monitorStep, h3, hp, setRunning, h1]
  · simp [monitorStep, h3, hp, setRunning, h1]
  · simp [monitorStep, h3, hp, setRunning, h1]
  · simp [monitorStep, h3, hp, setRunning, h1, countFinished, List.filter_append]
  · intro n
    rw [Function.iterate_fixed (monitorStep_done _ hdone) n]

/-- A runner whose process has just exited on its own: the monitor holds
an end-of-stream read with `poll()` reporting the exit. -/
def exitedRunner : SysState :=
  { config := ⟨"Aloha Core", "./launch_core.sh"⟩,
    process := some ["./launch_core.sh"], is_running := true,
    monitor := MonitorStatus.processing (ReadResult.eof true),
    pendingReads := [], events := [] }

/-- Witness for C7 at a concrete naturally-exited state. -/
theorem C7_witness :
    (exitedRunner.is_running = true ∧ exitedRunner.process.isSome = true
     ∧ exitedRunner.monitor = MonitorStatus.processing (ReadResult.eof true))
  ∧ ((monitorStep exitedRunner).is_running = false
     ∧ (monitorStep exitedRunner).process = none
     ∧ (monitorStep exitedRunner).monitor = MonitorStatus.done
     ∧ (monitorStep exitedRunner).events
         = exitedRunner.events
             ++ [Event.runningChanged false, Event.processFinished]
     ∧ countFinished (monitorStep exitedRunner).events
         = countFinished exitedRunner.events + 1
     ∧ ∀ n, countFinished ((monitorStep^[n]) (monitorStep exitedRunner)).events
           = countFinished (monitorStep exitedRunner).events) :=
  ⟨⟨by decide, by decide, by decide⟩,
   C7_natural_exit exitedRunner (by decide) (by decide) (by decide)⟩

/-- A running data-collection runner whose process has already produced a
line that the monitor thread is about to read. -/
def bufferedRunner : SysState :=
  { config := ⟨"Data Collection", "echo hello-${episode}"⟩,
    process := some ["echo", "hello-3"], is_running := true,
    monitor := MonitorStatus.atLoop,
    pendingReads := [ReadResult.line "hi\n"], events := [] }

/-- C2 counterexample: the monitor thread reads a line (one monitor step
from `bufferedRunner`), then `stop()` runs to completion and returns with
the runner Idle — and the next monitor step still delivers that line to
the sink as an `outputLine` event. So an OutputLine event for the run is
delivered after `stop()` has returned, refuting the claim. -/
theorem C2_counterexample :
    (stop_script none (monitorStep bufferedRunner)).is_running = false
  ∧ (stop_script none (monitorStep bufferedRunner)).process = none
  ∧ (monitorStep (stop_script none (monitorStep bufferedRunner))).events
      = (stop_script none (monitorStep bufferedRunner)).events
          ++ [Event.outputLine "hi"] := by
  refine ⟨?_, ?_, ?_⟩ <;> decide

/-- One additional `outputLine` may still be pending in a stopped runner:
exactly when the monitor thread already holds a read result. -/
def budget : MonitorStatus → Nat
  | MonitorStatus.processing (ReadResult.line _) => 1
  | MonitorStatus.processing (ReadResult.eof _) => 1
  | _ => 0

theorem budget_le_one (ms : MonitorStatus) : budget ms ≤ 1 := by
  cases ms with
  | processing r => cases r <;> simp [budget]
  | _ => simp [budget]

/-- In a stopped runner (Idle, handle discarded) a monitor step stays
stopped, consumes no pending read, and can only spend the one-line
delivery budget already in flight. -/
theorem stopped_monitorStep (s : SysState) (h1 : s.is_running = false)
    (h2 : s.process = none) :
    (monitorStep s).is_running = false
  ∧ (monitorStep s).process = none
  ∧ (monitorStep s).pendingReads = s.pendingReads
  ∧ countOutput (monitorStep s).events + budget (monitorStep s).monitor
      ≤ countOutput s.events + budget s.monitor := by
  cases hm : s.monitor with
  | noThread => simp [monitorStep, hm, h1, h2]
  | done => simp [monitorStep, hm, h1, h2]
  | atLoop =>
    refine ⟨?_, ?_, ?_, ?_⟩ <;> simp [monitorStep, hm, h1, h2, budget]
  | processing r =>
    cases r with
    | line t =>
      refine ⟨?_, ?_, ?_, ?_⟩ <;>
        simp [monitorStep, hm, h1, h2, budget, countOutput, List.filter_append]
    | eof exited =>
      refine ⟨?_, ?_, ?_, ?_⟩ <;>
        simp [monitorStep, hm, h1, h2, budget, countOutput, List.filter_append]
    | err m =>
      refine ⟨?_, ?_, ?_, ?_⟩ <;>
        simp [monitorStep, hm, h1, h2, budget, countOutput, List.filter_append]

/-- Iterated form of `stopped_monitorStep`. -/
theorem stopped_iterate (s : SysState) (h1 : s.is_running = false)
    (h2 : s.process = none) :
    ∀ n, (monitorStep^[n] s).is_running = false
       ∧ (monitorStep^[n] s).process = none
       ∧ (monitorStep^[n] s).pendingReads = s.pendingReads
       ∧ countOutput (monitorStep^[n] s).events + budget (monitorStep^[n] s).monitor
           ≤ countOutput s.events + budget s.monitor := by
  intro n
  induction n with
  | zero => exact ⟨h1, h2, rfl, le_refl _⟩
  | succ k ih =>
    obtain ⟨i1, i2, i3, i4⟩ := ih
    have step := stopped_monitorStep _ i1 i2
    rw [Function.iterate_succ_apply']
    exact ⟨step.1, step.2.1, by rw [step.2.2.1, i3],
           le_trans step.2.2.2 i4⟩

/-- C2 (amended): after a SUCCESSFUL `stop()` returns, RunState is Idle
and the handle is discarded; the relay then consumes no further reads, but
at most one output line whose read was already in flight before the stop
may still be delivered to the sink afterwards. (When the termination call
fails, the supervisor does not even reach Idle — see the C1 theorems.) -/
theorem C2_stop_amended (s : SysState) (n : Nat)
    (h : s.process.isSome = true) :
    (stop_script none s).is_running = false
  ∧ (stop_script none s).process = none
  ∧ (monitorStep^[n] (stop_script none s)).pendingReads
      = (stop_script none s).pendingReads
  ∧ countOutput (monitorStep^[n] (stop_script none s)).events
      ≤ countOutput (stop_script none s).events + 1 := by
  obtain ⟨p, hp⟩ := Option.isSome_iff_exists.mp h
  have hrun : (stop_script none s).is_running = false := by
    simp only [stop_script, hp, setRunning]
    split_ifs <;> simp_all
  have hproc : (stop_script none s).process = none := by
    simp only [stop_script, hp, setRunning]
    split_ifs <;> simp_all
  obtain ⟨i1, i2, i3, i4⟩ := stopped_iterate (stop_script none s) hrun hproc n
  refine ⟨hrun, hproc, i3, ?_⟩
  calc countOutput (monitorStep^[n] (stop_script none s)).events
      ≤ countOutput (monitorStep^[n] (stop_script none s)).events
          + budget (monitorStep^[n] (stop_script none s)).monitor := Nat.le_add_right _ _
    _ ≤ countOutput (stop_script none s).events
          + budget (stop_script none s).monitor := i4
    _ ≤ countOutput (stop_script none s).events + 1 :=
        Nat.add_le_add_left (budget_le_one _) _

/-- Witness for the amended C2: two monitor steps after stopping the
buffered runner mid-read deliver at most the one in-flight line. -/
theorem C2_witness :
    (monitorStep bufferedRunner).process.isSome = true
  ∧ ((stop_script none (monitorStep bufferedRunner)).is_running = false
     ∧ (stop_script none (monitorStep bufferedRunner)).process = none
     ∧ (monitorStep^[2] (stop_script none (monitorStep bufferedRunner))).pendingReads
         = (stop_script none (monitorStep bufferedRunner)).pendingReads
     ∧ countOutput
         (monitorStep^[2] (stop_script none (monitorStep bufferedRunner))).events
         ≤ countOutput (stop_script none (monitorStep bufferedRunner)).events + 1) :=
  ⟨by decide, C2_stop_amended (monitorStep bufferedRunner) 2 (by decide)⟩

end AlohaConsole
